import Mathlib

/-!
Shallow embedding of the x402 payment subsystem of `src/conway/x402.ts`
(functions `x402Fetch`, `parsePaymentRequired`, `signPayment`,
`signSolanaPayment` and their helpers), together with theorems settling the
specification claims about it.

Modelling conventions:
* JavaScript values that may be `undefined` are modelled as `Option`-typed
  fields; JS truthiness of a string is `s ≠ ""`, of a number `n ≠ 0`.
* Code that can throw is modelled in `Except String`, the `String` being the
  thrown error message; `try/catch` blocks become `match` on the `Except`.
* External collaborators (the network, the `@x402/evm` SDK, `viem`'s
  `getAddress`/`signTypedData`, Solana RPC) are oracle functions supplied in
  an environment record, so theorems quantify over every possible behaviour
  of the outside world.
* JSON parsing of wire bytes is abstracted by its outcome: a response model
  carries, for each place the code attempts `JSON.parse`, either the parsed
  value or a parse failure, mirroring the decision structure of the source.
-/

/-- JS `a || b` on two possibly-undefined strings: the left operand wins
unless it is absent or empty (falsy). -/
def orS : Option String → Option String → Option String
  | some s, b => if s = "" then b else some s
  | none, b => b

/-- JS `a || b` where the fallback is a definite string. -/
def orSD (a : Option String) (b : String) : String :=
  match a with
  | some s => if s = "" then b else s
  | none => b

/-- JS `a || b` on two possibly-undefined numbers: the left operand wins
unless it is absent or zero (falsy). -/
def orN : Option Nat → Option Nat → Option Nat
  | some n, b => if n = 0 then b else some n
  | none, b => b

/-- JS `a || b` where the fallback is a definite number. -/
def orND (a : Option Nat) (b : Nat) : Nat :=
  match a with
  | some n => if n = 0 then b else n
  | none => b

/-- JS string truthiness of a possibly-undefined string. -/
def truthyS : Option String → Bool
  | some s => s ≠ ""
  | none => false


/-- Boolean prefix test on character lists (structurally recursive so that
concrete instances evaluate by kernel reduction). -/
def charsPrefixOf : List Char → List Char → Bool
  | [], _ => true
  | _ :: _, [] => false
  | c :: cs, d :: ds => c = d && charsPrefixOf cs ds

/-- JS `s.startsWith(p)` for definite strings. -/
def strStartsWith (s p : String) : Bool := charsPrefixOf p.data s.data

/-- The numeric value of a decimal digit character, by its code point. -/
def digitVal? (c : Char) : Option Nat :=
  if 48 ≤ c.toNat && c.toNat ≤ 57 then some (c.toNat - 48) else none

/-- Accumulating parse of an all-digits character list. -/
def parseDecimalAux : List Char → Nat → Option Nat
  | [], acc => some acc
  | c :: cs, acc =>
    match digitVal? c with
    | some d => parseDecimalAux cs (acc * 10 + d)
    | none => none

/-- The value of a canonical non-empty decimal numeral string, `none` for
any other string. -/
def parseDecimal (s : String) : Option Nat :=
  match s.data with
  | [] => none
  | cs => parseDecimalAux cs 0

/-- The leading digit characters of a string. -/
def leadingDigits : List Char → List Char
  | [] => []
  | c :: cs =>
    match digitVal? c with
    | some _ => c :: leadingDigits cs
    | none => []

/-- JS `parseInt` on the strings this code feeds it: the leading decimal
digits parsed, NaN (`none`) when there are none. (Signs, whitespace and
radix prefixes do not occur in the modelled inputs.) -/
def jsParseInt (s : String) : Option Nat :=
  match leadingDigits s.data with
  | [] => none
  | ds => parseDecimalAux ds 0

/-- The characters before the first colon of a list. -/
def takeUntilColon : List Char → List Char
  | [] => []
  | c :: cs => if c = ':' then [] else c :: takeUntilColon cs

/-- The characters after the first colon of a list, `none` when there is
no colon. -/
def afterFirstColon : List Char → Option (List Char)
  | [] => none
  | c :: cs => if c = ':' then some cs else afterFirstColon cs

/-- JS `s.split(":")[1]`: the second piece of the colon split, undefined
(`none`) when the string holds no colon. -/
def secondColonPiece (s : String) : Option String :=
  (afterFirstColon s.data).map (fun cs => String.mk (takeUntilColon cs))

/-- The `extra` metadata object of an accept option (EIP-712 domain data). -/
structure Extra where
  name : Option String
  version : Option String
  assetTransferMethod : Option String
deriving DecidableEq

/-- The empty JS object used as `rawAccept.extra || {}`. -/
def emptyExtra : Extra := ⟨none, none, none⟩

/-- One entry of a 402 challenge's `accepts` array, with both the v1 field
names (`maxAmountRequired`, `payToAddress`, `requiredDeadlineSeconds`,
`usdcAddress`) and the v2 field names (`amount`, `payTo`,
`maxTimeoutSeconds`, `asset`) the code tolerates. -/
structure Accept where
  scheme : Option String := none
  network : Option String := none
  maxAmountRequired : Option String := none
  amount : Option String := none
  payToAddress : Option String := none
  payTo : Option String := none
  requiredDeadlineSeconds : Option Nat := none
  maxTimeoutSeconds : Option Nat := none
  usdcAddress : Option String := none
  asset : Option String := none
  extra : Option Extra := none
deriving DecidableEq

/-- The empty JS object used as `requirement.rawAccept || {}`. -/
def emptyAccept : Accept := {}

/-- The `PaymentRequirement` interface of `x402.ts`. The TS declaration
types most fields as required, but at runtime `normalize` copies possibly
`undefined` values into them, so they are modelled as `Option`. -/
structure PaymentRequirement where
  scheme : Option String := none
  network : Option String := none
  maxAmountRequired : Option String := none
  payToAddress : Option String := none
  requiredDeadlineSeconds : Option Nat := none
  usdcAddress : Option String := none
  rawAccept : Option Accept := none
deriving DecidableEq

/-- The `USDC_ADDRESSES` record: USDC contract/mint per network id. -/
def USDC_ADDRESSES : String → Option String
  | "eip155:8453" => some "0x833589fCD6eDb6E08f4c7C32D4f71b54bdA02913"
  | "eip155:84532" => some "0x036CbD53842c5426634e7929541eC2318f3dCF7e"
  | "solana:mainnet" => some "EPjFWdd5AufqSSqeM2qN1xzybapC8G4wEGGkZwyTDt1v"
  | "solana:devnet" => some "4zMMC9srt5Ri5X14GAgXhaHii3GnPAEERYPJgZJDncDU"
  | _ => none

/-- JS `USDC_ADDRESSES[network]` where `network` itself may be undefined. -/
def usdcFor : Option String → Option String
  | some n => USDC_ADDRESSES n
  | none => none

/-- The `normalize` arrow function inside `parsePaymentRequired`
(lines 351-359 of `x402.ts`): maps an accept object to a
`PaymentRequirement`, keeping the raw accept alongside. -/
def normalizeAccept (accept : Accept) : PaymentRequirement :=
  { scheme := accept.scheme
    network := accept.network
    maxAmountRequired := accept.maxAmountRequired
    payToAddress := orS accept.payToAddress accept.payTo
    requiredDeadlineSeconds :=
      some (orND (orN accept.requiredDeadlineSeconds accept.maxTimeoutSeconds) 300)
    usdcAddress :=
      orS (orS (orS accept.usdcAddress accept.asset) (usdcFor accept.network))
        (USDC_ADDRESSES "eip155:8453")
    rawAccept := some accept }

/-- JS `s.startsWith(p)` on a possibly-undefined receiver: accessing the
method on `undefined` throws a `TypeError`. -/
def jsStartsWith (s : Option String) (p : String) : Except String Bool :=
  match s with
  | some s => .ok (strStartsWith s p)
  | none => .error "Cannot read properties of undefined (reading startsWith)"

/-- Outcome of one `JSON.parse` attempt on wire text, abstracted by its
result: either the parsed requirements object or a thrown `SyntaxError`. -/
inductive JsonTry (α : Type) where
  | parsed (v : α)
  | parseFail
deriving DecidableEq

/-- The parsed top-level object of a 402 challenge as far as the code
inspects it: its `accepts` member, absent (or falsy) vs a list. -/
structure Requirements where
  accepts : Option (List Accept)
deriving DecidableEq

/-- Shape of a present `X-Payment-Required` header value, following the
decision structure of lines 305-324 of `x402.ts`: a value whose trimmed
text starts with a brace is JSON-parsed directly; otherwise it is base64
decoded and, when the decoded text starts with a brace, JSON-parsed; any
other shape is left unrecognized. -/
inductive HeaderShape where
  | braceJson (r : JsonTry Requirements)
  | base64ToBrace (r : JsonTry Requirements)
  | unrecognized
deriving DecidableEq

/-- The header phase of `parsePaymentRequired`: the requirements object
obtained from the header, if any; all parse errors are swallowed. -/
def headerRequirements : Option HeaderShape → Option Requirements
  | some (.braceJson (.parsed v)) => some v
  | some (.base64ToBrace (.parsed v)) => some v
  | _ => none

/-- The part of a 402 `Response` object that `parsePaymentRequired` reads:
the `X-Payment-Required` header (absent or with a given parse shape) and
the body, whose `resp.text()` read can itself throw, followed by a
`JSON.parse` attempt. -/
structure Resp402 where
  header : Option HeaderShape
  bodyText : Except String (JsonTry Requirements)

/-- Truthiness of the two wallet slots passed to `parsePaymentRequired`. -/
structure Wallets where
  evm : Bool
  solana : Bool
deriving DecidableEq

/-- First loop of `parsePaymentRequired` (lines 362-367): scan for an
accept whose network starts with "solana:" while a Solana wallet is held.
JS evaluates `accept.network.startsWith(..)` before the wallet check, so an
undefined network throws even when no Solana wallet is present. -/
def findSolanaAccept (wallets : Wallets) : List Accept → Except String (Option Accept)
  | [] => .ok none
  | a :: rest => do
    let b ← jsStartsWith a.network "solana:"
    if b && wallets.solana then .ok (some a) else findSolanaAccept wallets rest

/-- Second loop of `parsePaymentRequired` (lines 370-375): scan for an
accept whose network starts with "eip155:" while an EVM wallet is held. -/
def findEvmAccept (wallets : Wallets) : List Accept → Except String (Option Accept)
  | [] => .ok none
  | a :: rest => do
    let b ← jsStartsWith a.network "eip155:"
    if b && wallets.evm then .ok (some a) else findEvmAccept wallets rest

/-- Lines 341-378 of `parsePaymentRequired`: given the requirements object,
require an `accepts` member, then select the first compatible Solana
accept, else the first compatible EVM accept, else null. -/
def selectFromRequirements (v : Requirements) (wallets : Wallets) :
    Except String (Option PaymentRequirement) := do
  match v.accepts with
  | none => .ok none
  | some accepts =>
    match ← findSolanaAccept wallets accepts with
    | some a => .ok (some (normalizeAccept a))
    | none =>
      match ← findEvmAccept wallets accepts with
      | some a => .ok (some (normalizeAccept a))
      | none => .ok none

/-- The `parsePaymentRequired` function (lines 298-379 of `x402.ts`):
try the header, fall back to the body; body read errors and body JSON
parse errors return null; then check `accepts` and select a network. -/
def parsePaymentRequired (resp : Resp402) (wallets : Wallets) :
    Except String (Option PaymentRequirement) :=
  match headerRequirements resp.header with
  | some v => selectFromRequirements v wallets
  | none =>
    match resp.bodyText with
    | .error _ => .ok none
    | .ok .parseFail => .ok none
    | .ok (.parsed v) => selectFromRequirements v wallets

/-- The accept predicate the Solana loop implements, for accepts whose
network is present. -/
def isSolanaNet (a : Accept) : Bool :=
  strStartsWith (a.network.getD "") "solana:"

theorem findSolanaAccept_eq_find (wallets : Wallets) (hsol : wallets.solana = true)
    (accepts : List Accept) (hnet : ∀ a ∈ accepts, a.network.isSome) :
    findSolanaAccept wallets accepts = .ok (accepts.find? isSolanaNet) := by
  induction accepts with
  | nil => rfl
  | cons a rest ih =>
    obtain ⟨s, hs⟩ := Option.isSome_iff_exists.mp (hnet a (List.mem_cons_self a rest))
    have hrest := ih (fun x hx => hnet x (List.mem_cons_of_mem a hx))
    simp only [findSolanaAccept, jsStartsWith, hs, hsol, Bool.and_true, List.find?,
      isSolanaNet, Option.getD_some]
    by_cases h : strStartsWith s "solana:" = true
    · simp only [h]; rfl
    · simp only [Bool.not_eq_true] at h
      simp only [h, hrest]
      rfl

theorem findSolanaAccept_none_of_incompatible (wallets : Wallets)
    (accepts : List Accept)
    (h : ∀ a ∈ accepts, ∃ s, a.network = some s ∧
      (strStartsWith s "solana:" = true → wallets.solana = false)) :
    findSolanaAccept wallets accepts = .ok none := by
  induction accepts with
  | nil => rfl
  | cons a rest ih =>
    obtain ⟨s, hs, hw⟩ := h a (List.mem_cons_self a rest)
    have hrest := ih (fun x hx => h x (List.mem_cons_of_mem a hx))
    simp only [findSolanaAccept, jsStartsWith, hs, hrest]
    by_cases hp : strStartsWith s "solana:" = true
    · simp only [hp, hw hp]; rfl
    · simp only [Bool.not_eq_true] at hp
      simp only [hp]
      rfl

theorem findEvmAccept_none_of_incompatible (wallets : Wallets)
    (accepts : List Accept)
    (h : ∀ a ∈ accepts, ∃ s, a.network = some s ∧
      (strStartsWith s "eip155:" = true → wallets.evm = false)) :
    findEvmAccept wallets accepts = .ok none := by
  induction accepts with
  | nil => rfl
  | cons a rest ih =>
    obtain ⟨s, hs, hw⟩ := h a (List.mem_cons_self a rest)
    have hrest := ih (fun x hx => h x (List.mem_cons_of_mem a hx))
    simp only [findEvmAccept, jsStartsWith, hs, hrest]
    by_cases hp : strStartsWith s "eip155:" = true
    · simp only [hp, hw hp]; rfl
    · simp only [Bool.not_eq_true] at hp
      simp only [hp]
      rfl

/-- C5: with both wallets held and a challenge whose accepts all carry a
network and contain at least one Solana-prefixed and one eip155-prefixed
entry, `parsePaymentRequired` selects exactly the first Solana-prefixed
accept of the list, in server order. -/
theorem c5_selector_prefers_first_solana (wallets : Wallets)
    (hsol : wallets.solana = true) (_hevm : wallets.evm = true)
    (accepts : List Accept) (hnet : ∀ a ∈ accepts, a.network.isSome)
    (hhasSol : ∃ a ∈ accepts, isSolanaNet a = true)
    (_hhasEvm : ∃ a ∈ accepts, strStartsWith (a.network.getD "") "eip155:" = true) :
    parsePaymentRequired ⟨none, .ok (.parsed ⟨some accepts⟩)⟩ wallets =
      .ok (Option.map normalizeAccept (accepts.find? isSolanaNet)) ∧
    (accepts.find? isSolanaNet).isSome := by
  have hfind : (accepts.find? isSolanaNet).isSome := by
    obtain ⟨a, ha, hsa⟩ := hhasSol
    cases hf : accepts.find? isSolanaNet with
    | none => exact absurd hsa (by simpa using List.find?_eq_none.mp hf a ha)
    | some x => rfl
  refine ⟨?_, hfind⟩
  obtain ⟨x, hx⟩ := Option.isSome_iff_exists.mp hfind
  simp only [parsePaymentRequired, headerRequirements, selectFromRequirements]
  rw [findSolanaAccept_eq_find wallets hsol accepts hnet]
  simp [hx, Except.bind, Bind.bind]

/-- C6: when the header and the body both fail to yield a JSON object, or
when the object they yield lacks a non-empty `accepts` array, the parser
returns null (`.ok none`: null without throwing). -/
theorem c6_parser_returns_null (resp : Resp402) (wallets : Wallets) :
    (headerRequirements resp.header = none →
      (∀ v, resp.bodyText ≠ .ok (.parsed v)) →
      parsePaymentRequired resp wallets = .ok none) ∧
    (∀ v, (headerRequirements resp.header = some v ∨
        (headerRequirements resp.header = none ∧ resp.bodyText = .ok (.parsed v))) →
      (v.accepts = none ∨ v.accepts = some []) →
      parsePaymentRequired resp wallets = .ok none) := by
  constructor
  · intro hh hb
    simp only [parsePaymentRequired, hh]
    cases hbt : resp.bodyText with
    | error m => rfl
    | ok t =>
      cases t with
      | parseFail => rfl
      | parsed v => exact absurd hbt (hb v)
  · intro v hsrc hacc
    have hsel : selectFromRequirements v wallets = .ok none := by
      cases hacc with
      | inl h => simp [selectFromRequirements, h]
      | inr h => simp [selectFromRequirements, h, findSolanaAccept, findEvmAccept]; rfl
    cases hsrc with
    | inl h => simp only [parsePaymentRequired, h, hsel]
    | inr h => simp only [parsePaymentRequired, h.1, h.2, hsel]

/-- Closed witness for `c6_parser_returns_null`: a response whose header and
body are both unparsable yields null. -/
theorem c6_parser_returns_null_witness :
    parsePaymentRequired ⟨some (.braceJson .parseFail), .ok .parseFail⟩ ⟨true, true⟩ =
      .ok none :=
  (c6_parser_returns_null ⟨some (.braceJson .parseFail), .ok .parseFail⟩ ⟨true, true⟩).1
    rfl (fun v h => by simp at h)

/-- An accept option carrying every v1 field together with its v2
counterpart, with distinct values, to separate the two preferences. -/
def mixedAccept : Accept :=
  { scheme := some "exact"
    network := some "eip155:8453"
    maxAmountRequired := some "111"
    amount := some "222"
    payToAddress := some "0xV1PayTo"
    payTo := some "0xV2PayTo"
    requiredDeadlineSeconds := some 100
    maxTimeoutSeconds := some 500
    usdcAddress := some "0xV1Usdc"
    asset := some "0xV2Asset"
    extra := none }

/-- C7, counterexample: on an accept carrying both v1 and v2 names for each
field pair, normalization takes the v1 value every time (and drops the v2
`amount` entirely), contradicting the claimed v2 preference. -/
theorem c7_counterexample_v1_preferred :
    (normalizeAccept mixedAccept).payToAddress = some "0xV1PayTo" ∧
    (normalizeAccept mixedAccept).payToAddress ≠ some "0xV2PayTo" ∧
    (normalizeAccept mixedAccept).requiredDeadlineSeconds = some 100 ∧
    (normalizeAccept mixedAccept).requiredDeadlineSeconds ≠ some 500 ∧
    (normalizeAccept mixedAccept).usdcAddress = some "0xV1Usdc" ∧
    (normalizeAccept mixedAccept).usdcAddress ≠ some "0xV2Asset" ∧
    (normalizeAccept mixedAccept).maxAmountRequired = some "111" ∧
    (normalizeAccept mixedAccept).maxAmountRequired ≠ some "222" := by
  decide

/-- C7, amended: normalization takes the v1 field's value whenever the v1
field is present and truthy, regardless of the v2 counterpart; the
normalized amount is always exactly `maxAmountRequired`, the v2 `amount`
field never being consulted. -/
theorem c7_amended_v1_preference (a : Accept) :
    (∀ s, a.payToAddress = some s → s ≠ "" →
      (normalizeAccept a).payToAddress = some s) ∧
    (∀ n, a.requiredDeadlineSeconds = some n → n ≠ 0 →
      (normalizeAccept a).requiredDeadlineSeconds = some n) ∧
    (∀ s, a.usdcAddress = some s → s ≠ "" →
      (normalizeAccept a).usdcAddress = some s) ∧
    (normalizeAccept a).maxAmountRequired = a.maxAmountRequired := by
  refine ⟨?_, ?_, ?_, rfl⟩
  · intro s hs hne
    simp [normalizeAccept, orS, hs, hne]
  · intro n hn hne
    simp [normalizeAccept, orN, orND, hn, hne]
  · intro s hs hne
    simp [normalizeAccept, orS, hs, hne]

/-- Closed witness for `c7_amended_v1_preference` at `mixedAccept`. -/
theorem c7_amended_v1_preference_witness :
    (normalizeAccept mixedAccept).payToAddress = some "0xV1PayTo" ∧
    (normalizeAccept mixedAccept).requiredDeadlineSeconds = some 100 ∧
    (normalizeAccept mixedAccept).usdcAddress = some "0xV1Usdc" ∧
    (normalizeAccept mixedAccept).maxAmountRequired = mixedAccept.maxAmountRequired :=
  ⟨(c7_amended_v1_preference mixedAccept).1 "0xV1PayTo" rfl (by decide),
   (c7_amended_v1_preference mixedAccept).2.1 100 rfl (by decide),
   (c7_amended_v1_preference mixedAccept).2.2.1 "0xV1Usdc" rfl (by decide),
   (c7_amended_v1_preference mixedAccept).2.2.2⟩

/-- The EIP-3009 authorization object of the custom-signed payload
(lines 474-481): all numeric members serialized as decimal strings. -/
structure Authorization where
  fromAddr : String
  toAddr : String
  value : String
  validAfter : String
  validBefore : String
  nonce : String
deriving DecidableEq

/-- The v2 requirements object handed to the SDK (lines 398-407), built by
spreading the raw accept and overriding the listed members; the members not
overridden are carried over from the spread. -/
structure SdkRequirements where
  scheme : String
  network : Option String
  payTo : Option String
  amount : String
  maxTimeoutSeconds : Nat
  asset : Option String
  extra : Extra
  maxAmountRequired : Option String
  payToAddress : Option String
  requiredDeadlineSeconds : Option Nat
  usdcAddress : Option String
deriving DecidableEq

/-- The single SPL transfer-checked instruction of the Solana payment
transaction (lines 506-513). -/
structure TransferCheckedInstruction where
  source : String
  mint : String
  destination : String
  owner : String
  amount : Int
  decimals : Nat
deriving DecidableEq

/-- The Solana payment transaction (lines 505-520): one instruction, a
recent blockhash, the fee payer, signed by the keypair. The base64
serialization of lines 521 is injective, so the payload is modelled as
carrying the transaction it serializes. -/
structure SolTransaction where
  instructions : List TransferCheckedInstruction
  recentBlockhash : String
  feePayer : String
  signedBy : String
deriving DecidableEq

/-- A signed payment payload: the opaque result of the SDK path, the
custom-signed EVM envelope of lines 470-483, or the Solana envelope of
lines 523-530. -/
inductive Payment where
  | sdkPay (payload : String)
  | evmPay (x402Version : Nat) (signature : String) (authorization : Authorization)
  | solPay (x402Version : Nat) (scheme : String) (network : Option String)
      (transaction : SolTransaction)
deriving DecidableEq

/-- The EIP-712 domain of lines 436-441. -/
structure TypedDomain where
  name : Option String
  version : Option String
  chainId : Option Int
  verifyingContract : String
deriving DecidableEq

/-- The TransferWithAuthorization typed-data message of lines 454-461. -/
structure AuthMessage where
  fromAddr : String
  toAddr : String
  value : Int
  validAfter : Int
  validBefore : Int
  nonce : String
deriving DecidableEq

/-- The EVM signing account: the code reads only its address and its
signing capability (the latter an oracle in `EvmSignEnv`). -/
structure EvmAccount where
  address : String
deriving DecidableEq

/-- Oracles for everything external the EVM signing path touches: the
`@x402/evm` SDK (import plus `createPaymentPayload`, any failure of either
being the `.error` case), the random nonce, the clock (`Date.now` already
floored to seconds), viem's `getAddress` (throws on an invalid or undefined
argument) and the account's `signTypedData`. -/
structure EvmSignEnv where
  sdk : SdkRequirements → Except String String
  nonce : String
  now : Int
  getAddress : Option String → Except String String
  signTypedData : TypedDomain → AuthMessage → Except String String

/-- Line 389: `requirement.rawAccept || {}`. -/
def rawAcceptOf (r : PaymentRequirement) : Accept := r.rawAccept.getD emptyAccept

/-- Line 390 and line 499: `requirement.maxAmountRequired || "0"`. -/
def amountStrOf (r : PaymentRequirement) : String := orSD r.maxAmountRequired "0"

/-- The default EIP-712 domain object the SDK path substitutes when the
accept carries no `extra` (line 406). -/
def defaultSdkExtra : Extra := ⟨some "USD Coin", some "2", some "eip3009"⟩

/-- Lines 398-407: the requirements object passed to the SDK. -/
def buildSdkRequirements (requirement : PaymentRequirement) (rawAccept : Accept)
    (amountStr : String) : SdkRequirements :=
  { scheme := "exact"
    network := requirement.network
    payTo := orS requirement.payToAddress rawAccept.payTo
    amount := orSD (orS rawAccept.amount rawAccept.maxAmountRequired) amountStr
    maxTimeoutSeconds :=
      orND (orN rawAccept.maxTimeoutSeconds requirement.requiredDeadlineSeconds) 300
    asset := orS requirement.usdcAddress rawAccept.asset
    extra := rawAccept.extra.getD defaultSdkExtra
    maxAmountRequired := rawAccept.maxAmountRequired
    payToAddress := rawAccept.payToAddress
    requiredDeadlineSeconds := rawAccept.requiredDeadlineSeconds
    usdcAddress := rawAccept.usdcAddress }

/-- Models the JS `BigInt` constructor on the strings this code feeds it:
a canonical decimal numeral parses to its value, anything else throws.
(`BigInt` also accepts signed, hex or empty strings; none of those shapes
reach this call in the modelled flows.) -/
def jsBigInt (s : String) : Except String Int :=
  match parseDecimal s with
  | some n => .ok (n : Int)
  | none => .error ("Cannot convert " ++ s ++ " to a BigInt")

/-- Line 435: `parseInt(requirement.network.split(":")[1])`. Splitting a JS
undefined throws; a missing or non-numeric suffix gives NaN, modelled as
`none`. -/
def chainIdOf : Option String → Except String (Option Int)
  | none => .error "Cannot read properties of undefined (reading split)"
  | some s =>
    .ok ((match secondColonPiece s with
      | some piece => jsParseInt piece
      | none => none).map Int.ofNat)

/-- Line 428: the asset address fallback chain of the custom path. -/
def customAssetAddress (r : PaymentRequirement) : Option String :=
  orS (orS (orS r.usdcAddress (rawAcceptOf r).asset) (usdcFor r.network))
    (USDC_ADDRESSES "eip155:8453")

/-- Line 430: `rawAccept.extra || {}` on the custom path. -/
def customExtra (r : PaymentRequirement) : Extra :=
  (rawAcceptOf r).extra.getD emptyExtra

/-- Line 424: the validity window length the custom path actually applies:
`rawAccept.maxTimeoutSeconds || requirement.requiredDeadlineSeconds || 300`. -/
def customPathDeadline (r : PaymentRequirement) : Nat :=
  orND (orN (rawAcceptOf r).maxTimeoutSeconds r.requiredDeadlineSeconds) 300

/-- The body of the `try` block of `signPayment` (lines 387-483): first the
SDK path; on any SDK failure the custom EIP-3009 path, whose throw points
appear in source order (BigInt, the two getAddress calls, the EIP-712
domain check, the network split, the from-address checksum inside the
message, the typed-data signing). -/
def signPaymentCore (env : EvmSignEnv) (account : EvmAccount)
    (requirement : PaymentRequirement) : Except String Payment :=
  match env.sdk (buildSdkRequirements requirement (rawAcceptOf requirement)
      (amountStrOf requirement)) with
  | .ok result => .ok (.sdkPay result)
  | .error _ =>
    match jsBigInt (amountStrOf requirement) with
    | .error m => .error m
    | .ok amount =>
      match env.getAddress (orS requirement.payToAddress (rawAcceptOf requirement).payTo) with
      | .error m => .error m
      | .ok toAddress =>
        match env.getAddress (customAssetAddress requirement) with
        | .error m => .error m
        | .ok assetAddress =>
          if !truthyS (customExtra requirement).name ||
              !truthyS (customExtra requirement).version then
            .error "EIP-712 domain params (name, version) required in payment requirements"
          else
            match chainIdOf requirement.network with
            | .error m => .error m
            | .ok chainId =>
              match env.getAddress (some account.address) with
              | .error m => .error m
              | .ok fromChecksummed =>
                match env.signTypedData
                    ⟨(customExtra requirement).name, (customExtra requirement).version,
                      chainId, assetAddress⟩
                    ⟨fromChecksummed, toAddress, amount, env.now - 600,
                      env.now + (customPathDeadline requirement : Int), env.nonce⟩ with
                | .error m => .error m
                | .ok signature =>
                  .ok (.evmPay 2 signature
                    ⟨account.address, toAddress, amountStrOf requirement,
                      toString (env.now - 600),
                      toString (env.now + (customPathDeadline requirement : Int)),
                      env.nonce⟩)

/-- `signPayment` (lines 381-489): the try body wrapped by the catch of
lines 484-488, which converts any thrown error into null. -/
def signPayment (env : EvmSignEnv) (account : EvmAccount)
    (requirement : PaymentRequirement) : Option Payment :=
  match signPaymentCore env account requirement with
  | .ok p => some p
  | .error _ => none

/-- The Solana keypair as the code uses it: its public key, plus the
signing capability exercised in `transaction.sign`. -/
structure SolKeypair where
  publicKey : String
deriving DecidableEq

/-- Oracles for the external calls of the Solana signing path: the
`PublicKey` constructor (throws on undefined or non-base58 input), the
`getOrCreateAssociatedTokenAccount` RPC (mint and owner to ATA address,
may throw) and the `getLatestBlockhash` RPC. -/
structure SolSignEnv where
  newPublicKey : Option String → Except String String
  getOrCreateAta : String → String → Except String String
  latestBlockhash : Except String String

/-- Models line 500, `Math.floor(parseFloat(amountStr) * 1_000_000)`, on
the strings this code feeds it. For a canonical decimal integer numeral
whose value times 10^6 stays below 2^53 the double computation is exact and
equals n * 1000000; a non-numeric string gives NaN (`none` here, on which
the later `BigInt` conversion throws). Fractional numerals and numerals
big enough to round in IEEE-754 are outside the modelled input shapes (the
protocol invariant makes `amount` an integer numeral). -/
def floorParseFloatTimesMillion (s : String) : Option Int :=
  (parseDecimal s).map (fun n => (n : Int) * 1000000)

/-- The body of the `try` block of `signSolanaPayment` (lines 495-530),
throw points in source order: mint `PublicKey`, destination `PublicKey`
(note line 498 reads `(requirement as any).payTo`, a member absent from
`PaymentRequirement`, hence undefined), the two ATA RPCs, the `BigInt`
conversion at instruction construction, the blockhash fetch. -/
def signSolanaPaymentCore (env : SolSignEnv) (keypair : SolKeypair)
    (requirement : PaymentRequirement) : Except String Payment :=
  match env.newPublicKey (orS (orS requirement.usdcAddress (usdcFor requirement.network))
      (USDC_ADDRESSES "solana:mainnet")) with
  | .error m => .error m
  | .ok mint =>
    match env.newPublicKey (orS requirement.payToAddress none) with
    | .error m => .error m
    | .ok destination =>
      match env.getOrCreateAta mint keypair.publicKey with
      | .error m => .error m
      | .ok fromAta =>
        match env.getOrCreateAta mint destination with
        | .error m => .error m
        | .ok toAta =>
          match floorParseFloatTimesMillion (amountStrOf requirement) with
          | none => .error "Cannot convert NaN to a BigInt"
          | some amount =>
            match env.latestBlockhash with
            | .error m => .error m
            | .ok blockhash =>
              .ok (.solPay 1 "exact" requirement.network
                { instructions := [⟨fromAta, mint, toAta, keypair.publicKey, amount, 6⟩]
                  recentBlockhash := blockhash
                  feePayer := keypair.publicKey
                  signedBy := keypair.publicKey })

/-- `signSolanaPayment` (lines 491-536): the try body wrapped by the catch
of lines 531-535, which converts any thrown error into null. -/
def signSolanaPayment (env : SolSignEnv) (keypair : SolKeypair)
    (requirement : PaymentRequirement) : Option Payment :=
  match signSolanaPaymentCore env keypair requirement with
  | .ok p => some p
  | .error _ => none

/-- A Solana signing environment in which every external call succeeds
deterministically: `PublicKey` echoes valid input, the ATA RPC derives an
address from the owner, the blockhash fetch succeeds. -/
def solEnvOk : SolSignEnv :=
  { newPublicKey := fun s =>
      match s with
      | some x => .ok x
      | none => .error "PublicKey constructor of undefined"
    getOrCreateAta := fun _ owner => .ok ("ata:" ++ owner)
    latestBlockhash := .ok "BLOCKHASH1" }

/-- A Solana requirement whose amount is the integer string 2: two base
units (0.000002 USDC) in the asset's smallest unit. -/
def solReq2 : PaymentRequirement :=
  { network := some "solana:mainnet"
    maxAmountRequired := some "2"
    payToAddress := some "DestWallet111"
    usdcAddress := some "EPjFWdd5AufqSSqeM2qN1xzybapC8G4wEGGkZwyTDt1v" }

/-- C3 (code bug evaluation): for the requirement whose amount field is the
integer string 2, the signed transaction's single transfer-checked
instruction carries amount 2000000, not 2 — `signSolanaPayment` multiplies
the already-smallest-unit amount by 10^6. -/
theorem c3_solana_amount_scaled_millionfold :
    signSolanaPayment solEnvOk ⟨"PayerPubkey1"⟩ solReq2 =
      some (.solPay 1 "exact" (some "solana:mainnet")
        { instructions := [⟨"ata:PayerPubkey1",
            "EPjFWdd5AufqSSqeM2qN1xzybapC8G4wEGGkZwyTDt1v",
            "ata:DestWallet111", "PayerPubkey1", 2000000, 6⟩]
          recentBlockhash := "BLOCKHASH1"
          feePayer := "PayerPubkey1"
          signedBy := "PayerPubkey1" }) ∧
    (2000000 : Int) ≠ 2 :=
  ⟨by decide, by decide⟩

/-- An accept whose `extra` metadata is absent entirely. -/
def noExtraAccept : Accept :=
  { scheme := some "exact"
    network := some "eip155:8453"
    maxAmountRequired := some "5"
    payToAddress := some "0xPayee4"
    extra := none }

/-- The normalized requirement for `noExtraAccept`. -/
def reqNoExtra : PaymentRequirement := normalizeAccept noExtraAccept

/-- An EVM signing environment whose SDK call succeeds. -/
def evmEnvSdkOk : EvmSignEnv :=
  { sdk := fun _ => .ok "sdk-signed-payload"
    nonce := "0xnonce04"
    now := 1700000000
    getAddress := fun s =>
      match s with
      | some x => .ok x
      | none => .error "invalid address undefined"
    signTypedData := fun _ _ => .ok "0xsignature04" }

/-- C4, counterexample: for a requirement whose extra metadata is missing,
the requirements object the code hands to the SDK has the default EIP-712
domain (name "USD Coin", version "2") substituted in place of the missing
values, and when the SDK call succeeds `signPayment` returns its payload
instead of failing with null. -/
theorem c4_counterexample_default_domain :
    (buildSdkRequirements reqNoExtra (rawAcceptOf reqNoExtra)
        (amountStrOf reqNoExtra)).extra = defaultSdkExtra ∧
    defaultSdkExtra.name = some "USD Coin" ∧
    defaultSdkExtra.version = some "2" ∧
    (rawAcceptOf reqNoExtra).extra = none ∧
    signPayment evmEnvSdkOk ⟨"0xMyAddress"⟩ reqNoExtra =
      some (.sdkPay "sdk-signed-payload") ∧
    signPayment evmEnvSdkOk ⟨"0xMyAddress"⟩ reqNoExtra ≠ none := by
  refine ⟨rfl, rfl, rfl, rfl, rfl, ?_⟩
  rw [show signPayment evmEnvSdkOk ⟨"0xMyAddress"⟩ reqNoExtra =
    some (.sdkPay "sdk-signed-payload") from rfl]
  exact Option.some_ne_none _

/-- C4, amended: whenever the accept's extra lacks a truthy name or a
truthy version and the SDK path fails, `signPayment` returns null for
every behaviour of the remaining oracles — the custom path throws at the
domain check before any signing, substituting no defaults; the default
domain substitution exists only on the object handed to the SDK. -/
theorem c4_amended_custom_path_never_signs (env : EvmSignEnv) (account : EvmAccount)
    (requirement : PaymentRequirement)
    (hextra : truthyS (customExtra requirement).name = false ∨
      truthyS (customExtra requirement).version = false)
    (hsdk : ∃ m, env.sdk (buildSdkRequirements requirement (rawAcceptOf requirement)
      (amountStrOf requirement)) = .error m) :
    signPayment env account requirement = none := by
  obtain ⟨m, hm⟩ := hsdk
  have hcond : (!truthyS (customExtra requirement).name ||
      !truthyS (customExtra requirement).version) = true := by
    cases hextra with
    | inl h => simp [h]
    | inr h => simp [h]
  unfold signPayment signPaymentCore
  rw [hm]
  cases h1 : jsBigInt (amountStrOf requirement) with
  | error m1 => rfl
  | ok amount =>
    cases h2 : env.getAddress (orS requirement.payToAddress
        (rawAcceptOf requirement).payTo) with
    | error m2 => rfl
    | ok toAddress =>
      cases h3 : env.getAddress (customAssetAddress requirement) with
      | error m3 => rfl
      | ok assetAddress =>
        rw [hcond]
        rfl

/-- Closed witness for `c4_amended_custom_path_never_signs`: with a failing
SDK and no extra metadata, signing fails. -/
theorem c4_amended_custom_path_never_signs_witness :
    signPayment
      { evmEnvSdkOk with sdk := fun _ => .error "Cannot find module x402/evm" }
      ⟨"0xMyAddress"⟩ reqNoExtra = none :=
  c4_amended_custom_path_never_signs _ _ _ (Or.inl rfl) ⟨"Cannot find module x402/evm", rfl⟩

/-- An accept carrying a v1 deadline of 100 seconds and a v2 timeout of 500
seconds together with valid EIP-712 extra metadata. -/
def bothDeadlineAccept : Accept :=
  { scheme := some "exact"
    network := some "eip155:8453"
    maxAmountRequired := some "7"
    payToAddress := some "0xPayee8"
    requiredDeadlineSeconds := some 100
    maxTimeoutSeconds := some 500
    extra := some ⟨some "USD Coin", some "2", none⟩ }

/-- The normalized requirement for `bothDeadlineAccept`: its own deadline
field is 100. -/
def reqBothDeadline : PaymentRequirement := normalizeAccept bothDeadlineAccept

/-- An EVM signing environment whose SDK always fails, forcing the custom
signing path; the other oracles succeed. -/
def evmEnvNoSdk : EvmSignEnv :=
  { sdk := fun _ => .error "Cannot find module x402/evm"
    nonce := "0xnonce08"
    now := 1700000000
    getAddress := fun s =>
      match s with
      | some x => .ok x
      | none => .error "invalid address undefined"
    signTypedData := fun _ _ => .ok "0xsignature08" }

/-- C8, counterexample: for a requirement whose own deadline field is 100
but whose raw accept also carries maxTimeoutSeconds 500, the custom path
signs validAfter = now - 600 and validBefore = now + 500, so the window is
1100 seconds, not 600 + 100: the claimed equality fails at this input. -/
theorem c8_counterexample_window :
    signPayment evmEnvNoSdk ⟨"0xMe8"⟩ reqBothDeadline =
      some (.evmPay 2 "0xsignature08"
        ⟨"0xMe8", "0xPayee8", "7", "1699999400", "1700000500", "0xnonce08"⟩) ∧
    reqBothDeadline.requiredDeadlineSeconds = some 100 ∧
    (1700000500 : Int) - 1699999400 ≠ 600 + 100 :=
  ⟨by decide, by decide, by decide⟩

/-- Inversion of a successful custom-path signing: every payload the
custom path produces carries version 2, the account address, the amount
string, the window endpoints now - 600 and now + the applied deadline, and
the environment nonce. -/
theorem signPayment_evmPay_inv (env : EvmSignEnv) (account : EvmAccount)
    (requirement : PaymentRequirement) (v : Nat) (sig : String) (auth : Authorization)
    (h : signPayment env account requirement = some (.evmPay v sig auth)) :
    v = 2 ∧ auth.fromAddr = account.address ∧
    auth.value = amountStrOf requirement ∧
    auth.validAfter = toString (env.now - 600) ∧
    auth.validBefore = toString (env.now + (customPathDeadline requirement : Int)) ∧
    auth.nonce = env.nonce := by
  unfold signPayment at h
  cases hcore : signPaymentCore env account requirement with
  | error m => rw [hcore] at h; exact absurd h (by simp)
  | ok p =>
    rw [hcore] at h
    have hp : p = .evmPay v sig auth := by
      cases h' : p <;> rw [h'] at h <;> simp_all
    subst hp
    unfold signPaymentCore at hcore
    cases hsdk : env.sdk (buildSdkRequirements requirement (rawAcceptOf requirement)
        (amountStrOf requirement)) with
    | ok r => rw [hsdk] at hcore; exact absurd hcore (by simp)
    | error m0 =>
      rw [hsdk] at hcore
      cases h1 : jsBigInt (amountStrOf requirement) with
      | error m1 => rw [h1] at hcore; exact absurd hcore (by simp)
      | ok amount =>
        rw [h1] at hcore
        cases h2 : env.getAddress (orS requirement.payToAddress
            (rawAcceptOf requirement).payTo) with
        | error m2 => rw [h2] at hcore; exact absurd hcore (by simp)
        | ok toAddress =>
          rw [h2] at hcore
          cases h3 : env.getAddress (customAssetAddress requirement) with
          | error m3 => rw [h3] at hcore; exact absurd hcore (by simp)
          | ok assetAddress =>
            rw [h3] at hcore
            by_cases hc : (!truthyS (customExtra requirement).name ||
                !truthyS (customExtra requirement).version) = true
            · rw [hc] at hcore; exact absurd hcore (by simp)
            · simp only [Bool.not_eq_true] at hc
              rw [hc] at hcore
              simp only [Bool.false_eq_true, if_false] at hcore
              cases h4 : chainIdOf requirement.network with
              | error m4 => rw [h4] at hcore; exact absurd hcore (by simp)
              | ok chainId =>
                simp only [h4] at hcore
                cases h5 : env.getAddress (some account.address) with
                | error m5 => rw [h5] at hcore; exact absurd hcore (by simp)
                | ok fromChecksummed =>
                  simp only [h5] at hcore
                  cases h6 : env.signTypedData
                      ⟨(customExtra requirement).name, (customExtra requirement).version,
                        chainId, assetAddress⟩
                      ⟨fromChecksummed, toAddress, amount, env.now - 600,
                        env.now + (customPathDeadline requirement : Int), env.nonce⟩ with
                  | error m6 => rw [h6] at hcore; exact absurd hcore (by simp)
                  | ok signature =>
                    rw [h6] at hcore
                    have hinj := Except.ok.inj hcore
                    cases hinj
                    exact ⟨rfl, rfl, rfl, rfl, rfl, rfl⟩

/-- C8, amended: every payload produced by the custom path has
validAfter = now - 600 and validBefore = now + D, hence a window
validBefore - validAfter = 600 + D, where D is rawAccept.maxTimeoutSeconds
when present and nonzero, else the requirement's requiredDeadlineSeconds
when present and nonzero, else 300. -/
theorem c8_amended_window (env : EvmSignEnv) (account : EvmAccount)
    (requirement : PaymentRequirement) (v : Nat) (sig : String) (auth : Authorization)
    (h : signPayment env account requirement = some (.evmPay v sig auth)) :
    auth.validAfter = toString (env.now - 600) ∧
    auth.validBefore = toString (env.now + (customPathDeadline requirement : Int)) ∧
    ∃ a b : Int, auth.validAfter = toString a ∧ auth.validBefore = toString b ∧
      b - a = 600 + (customPathDeadline requirement : Int) := by
  obtain ⟨-, -, -, hva, hvb, -⟩ :=
    signPayment_evmPay_inv env account requirement v sig auth h
  exact ⟨hva, hvb, env.now - 600, env.now + (customPathDeadline requirement : Int),
    hva, hvb, by ring⟩

/-- Closed witness for `c8_amended_window` at the concrete environment of
the counterexample: the window there is 600 + 500 seconds. -/
theorem c8_amended_window_witness :
    ∃ a b : Int,
      (Authorization.mk "0xMe8" "0xPayee8" "7" "1699999400" "1700000500"
        "0xnonce08").validAfter = toString a ∧
      (Authorization.mk "0xMe8" "0xPayee8" "7" "1699999400" "1700000500"
        "0xnonce08").validBefore = toString b ∧
      b - a = 600 + (customPathDeadline reqBothDeadline : Int) :=
  (c8_amended_window evmEnvNoSdk ⟨"0xMe8"⟩ reqBothDeadline 2 "0xsignature08"
    ⟨"0xMe8", "0xPayee8", "7", "1699999400", "1700000500", "0xnonce08"⟩ (by decide)).2.2

/-- An accept carrying its amount only under the v2 name `amount`. -/
def v2OnlyAmountAccept : Accept :=
  { scheme := some "exact"
    network := some "eip155:8453"
    amount := some "250000"
    payTo := some "0xPayeeX"
    maxTimeoutSeconds := some 60
    extra := some ⟨some "USD Coin", some "2", none⟩ }

/-- C10: for an accept whose amount lives only in the v2 `amount` field,
the normalized requirement has no amount, so the custom signing path signs
the fallback "0": the produced authorization carries value "0", not the
requested amount. -/
theorem c10_v2_amount_dropped_signs_zero (a : Accept) (env : EvmSignEnv)
    (account : EvmAccount) (v : Nat) (sig : String) (auth : Authorization)
    (s : String)
    (hM : a.maxAmountRequired = none) (_hA : a.amount = some s) (hs0 : s ≠ "0")
    (h : signPayment env account (normalizeAccept a) = some (.evmPay v sig auth)) :
    (normalizeAccept a).maxAmountRequired = none ∧
    amountStrOf (normalizeAccept a) = "0" ∧
    auth.value = "0" ∧
    auth.value ≠ s := by
  have h0 : amountStrOf (normalizeAccept a) = "0" := by
    simp [amountStrOf, normalizeAccept, hM, orSD]
  obtain ⟨-, -, hval, -, -, -⟩ :=
    signPayment_evmPay_inv env account (normalizeAccept a) v sig auth h
  rw [h0] at hval
  exact ⟨by simp [normalizeAccept, hM], h0, hval, by rw [hval]; simpa using fun e => hs0 e.symm⟩

/-- Closed witness for `c10_v2_amount_dropped_signs_zero`: the concrete
v2-only accept signed through the custom path yields value "0". -/
theorem c10_v2_amount_dropped_signs_zero_witness :
    (normalizeAccept v2OnlyAmountAccept).maxAmountRequired = none ∧
    amountStrOf (normalizeAccept v2OnlyAmountAccept) = "0" ∧
    (Authorization.mk "0xMe10" "0xPayeeX" "0" "1699999400" "1700000060"
      "0xnonce08").value = "0" ∧
    (Authorization.mk "0xMe10" "0xPayeeX" "0" "1699999400" "1700000060"
      "0xnonce08").value ≠ "250000" :=
  c10_v2_amount_dropped_signs_zero v2OnlyAmountAccept evmEnvNoSdk ⟨"0xMe10"⟩
    2 "0xsignature08"
    ⟨"0xMe10", "0xPayeeX", "0", "1699999400", "1700000060", "0xnonce08"⟩
    "250000" rfl rfl (by decide) (by decide)

/-- An arbitrary JS value carried in a response body, abstracted by the
three observations the orchestrator makes of it: whether `typeof` is
string, its `JSON.stringify` text, and its truthiness. -/
inductive JsData where
  | jsonVal (stringified : String)
  | strVal (s : String)
  | falsyVal (stringified : String)
deriving DecidableEq

/-- JS truthiness of a body value: non-string JSON objects are truthy,
strings are truthy when non-empty, `falsyVal` covers false and 0. -/
def JsData.truthy : JsData → Bool
  | .jsonVal _ => true
  | .strVal s => s ≠ ""
  | .falsyVal _ => false

/-- Lines 279 and 286: `typeof data === "string" ? data : JSON.stringify(data)`. -/
def JsData.errText : JsData → String
  | .jsonVal s => s
  | .strVal s => s
  | .falsyVal s => s

/-- Line 228: `JSON.stringify(data)`; stringifying a string quotes it. -/
def JsData.stringifyJs : JsData → String
  | .jsonVal s => s
  | .strVal s => "\"" ++ s ++ "\""
  | .falsyVal s => s

/-- `Response.ok`: status in the 200-299 range. -/
def respOk (status : Nat) : Bool := 200 ≤ status && status < 300

/-- The initial response as `x402Fetch` observes it: its status, the
`resp.json().catch(() => null)` result and the
`resp.text().catch(() => "Unknown error")` text used on the non-402
branch, and the header/body parse shapes used on the 402 branch. -/
structure InitResp where
  status : Nat
  jsonCatchNull : Option JsData
  textCatchUnknown : String
  header : Option HeaderShape
  bodyText : Except String (JsonTry Requirements)

/-- The resubmission response: its status and the
`paidResp.json().catch(() => paidResp.text())` body, whose read can itself
throw (the error case). -/
structure PaidResp where
  status : Nat
  data : Except String JsData

/-- The `X402PaymentResult` interface of `x402.ts`. -/
structure X402PaymentResult where
  success : Bool
  response : Option JsData := none
  error : Option String := none
deriving DecidableEq

/-- The wallet set handed to `x402Fetch`: the EVM account is a required
parameter, the Solana keypair optional. -/
structure Accounts where
  evm : EvmAccount
  solana : Option SolKeypair

/-- The orchestrator's environment: the result of the initial fetch and of
the resubmission fetch, in order (a thrown fetch being the error case),
plus the oracle environments of the two signers. -/
structure FetchEnv where
  initial : Except String InitResp
  paid : Except String PaidResp
  evmEnv : EvmSignEnv
  solEnv : SolSignEnv

/-- Instrumentation of one `x402Fetch` run: how often a signer was
invoked, how many payment payloads were obtained, and how many
resubmission fetches were issued. -/
structure FetchTrace where
  signerCalls : Nat
  paymentsBuilt : Nat
  resubmissions : Nat
deriving DecidableEq

/-- Lines 226-234, the non-402 branch: success mirrors `resp.ok`, the
response is the json-or-null body, and the failure text prefers the
stringified body over the text fallback. -/
def nonPaymentResult (r : InitResp) : X402PaymentResult :=
  { success := respOk r.status
    response := r.jsonCatchNull
    error :=
      if respOk r.status then none
      else some ("HTTP " ++ toString r.status ++ ": " ++
        (match r.jsonCatchNull with
         | some d => if d.truthy then d.stringifyJs else r.textCatchUnknown
         | none => r.textCatchUnknown)) }

/-- Lines 261-287: the resubmission fetch, its body read, the second-402
hard failure, and the final mirroring of the resubmitted status. Errors
are rethrown to the top-level catch. -/
def resubmitOutcome (paid : Except String PaidResp) : Except String X402PaymentResult :=
  match paid with
  | .error m => .error m
  | .ok pr =>
    match pr.data with
    | .error m => .error m
    | .ok d =>
      if pr.status = 402 then
        .ok { success := false, response := some d,
              error := some ("HTTP 402: " ++ d.errText) }
      else
        .ok { success := respOk pr.status, response := some d,
              error :=
                if respOk pr.status then none
                else some ("HTTP " ++ toString pr.status ++ ": " ++ d.errText) }

/-- The body of the `try` block of `x402Fetch` (lines 213-287), paired
with the run's trace: initial fetch, the non-402 early return, challenge
parsing (the wallet set passed on line 237 always has a truthy `evm`),
the solana-prefix dispatch of line 244, signing, and resubmission. -/
def x402FetchTryBlock (env : FetchEnv) (accounts : Accounts) :
    Except String X402PaymentResult × FetchTrace :=
  match env.initial with
  | .error m => (.error m, ⟨0, 0, 0⟩)
  | .ok ir =>
    if ir.status ≠ 402 then (.ok (nonPaymentResult ir), ⟨0, 0, 0⟩)
    else
      match parsePaymentRequired ⟨ir.header, ir.bodyText⟩ ⟨true, accounts.solana.isSome⟩ with
      | .error m => (.error m, ⟨0, 0, 0⟩)
      | .ok none =>
        (.ok { success := false, error := some "Could not parse payment requirements" },
          ⟨0, 0, 0⟩)
      | .ok (some requirement) =>
        match jsStartsWith requirement.network "solana" with
        | .error m => (.error m, ⟨0, 0, 0⟩)
        | .ok true =>
          match accounts.solana with
          | none =>
            (.ok { success := false, error := some "Solana wallet required but not provided" },
              ⟨0, 0, 0⟩)
          | some kp =>
            match signSolanaPayment env.solEnv kp requirement with
            | none =>
              (.ok { success := false, error := some "Failed to sign payment (check logs)" },
                ⟨1, 0, 0⟩)
            | some _ => (resubmitOutcome env.paid, ⟨1, 1, 1⟩)
        | .ok false =>
          match signPayment env.evmEnv accounts.evm requirement with
          | none =>
            (.ok { success := false, error := some "Failed to sign payment (check logs)" },
              ⟨1, 0, 0⟩)
          | some _ => (resubmitOutcome env.paid, ⟨1, 1, 1⟩)

/-- `x402Fetch` (lines 206-296): the try body wrapped by the catch of
lines 288-295, which converts any escaping error into the network-error
outcome. -/
def x402Fetch (env : FetchEnv) (accounts : Accounts) : X402PaymentResult × FetchTrace :=
  match x402FetchTryBlock env accounts with
  | (.ok r, t) => (r, t)
  | (.error m, t) =>
    ({ success := false, response := none, error := some ("Network error: " ++ m) }, t)

theorem x402Fetch_trace_eq (env : FetchEnv) (accounts : Accounts) :
    (x402Fetch env accounts).2 = (x402FetchTryBlock env accounts).2 := by
  unfold x402Fetch
  rcases h : x402FetchTryBlock env accounts with ⟨e, t⟩
  cases e <;> rfl

theorem x402Fetch_of_ok (env : FetchEnv) (accounts : Accounts)
    (r : X402PaymentResult) (h : (x402FetchTryBlock env accounts).1 = .ok r) :
    (x402Fetch env accounts).1 = r := by
  unfold x402Fetch
  rcases ht : x402FetchTryBlock env accounts with ⟨e, t⟩
  rw [ht] at h
  simp only at h
  subst h
  rfl

/-- Exhaustive case split on one run: either no signer was consulted, or a
signer was consulted and failed, or exactly one payment was built and
exactly one resubmission issued, the outcome then being the resubmission
outcome (wrapped by the top-level catch). -/
theorem x402FetchTryBlock_cases (env : FetchEnv) (accounts : Accounts) :
    (x402FetchTryBlock env accounts).2 = ⟨0, 0, 0⟩ ∨
    (x402FetchTryBlock env accounts).2 = ⟨1, 0, 0⟩ ∨
    ((x402FetchTryBlock env accounts).2 = ⟨1, 1, 1⟩ ∧
      (x402FetchTryBlock env accounts).1 = resubmitOutcome env.paid) := by
  unfold x402FetchTryBlock
  repeat' split
  all_goals
    first
    | exact Or.inl rfl
    | exact Or.inr (Or.inl rfl)
    | exact Or.inr (Or.inr ⟨rfl, rfl⟩)

/-- C1: per call, at most one payment payload is built and at most one
resubmission issued; whenever the resubmission was issued and came back
with status 402, the call fails carrying the resubmission body verbatim
with the HTTP 402 error text, the counters confirming no further payment
or resubmission was attempted. -/
theorem c1_single_payment_attempt (env : FetchEnv) (accounts : Accounts) :
    (x402Fetch env accounts).2.paymentsBuilt ≤ 1 ∧
    (x402Fetch env accounts).2.resubmissions ≤ 1 ∧
    (∀ pr d, env.paid = .ok pr → pr.status = 402 → pr.data = .ok d →
      (x402Fetch env accounts).2.resubmissions = 1 →
      (x402Fetch env accounts).1.success = false ∧
      (x402Fetch env accounts).1.response = some d ∧
      (x402Fetch env accounts).1.error = some ("HTTP 402: " ++ d.errText)) := by
  have htr := x402Fetch_trace_eq env accounts
  obtain h | h | ⟨ht, hres⟩ := x402FetchTryBlock_cases env accounts
  · have h2 : (x402Fetch env accounts).2 = ⟨0, 0, 0⟩ := htr.trans h
    refine ⟨by simp [h2], by simp [h2], ?_⟩
    intro pr d hpr hst hd hres1
    rw [h2] at hres1
    exact absurd hres1 (by decide)
  · have h2 : (x402Fetch env accounts).2 = ⟨1, 0, 0⟩ := htr.trans h
    refine ⟨by simp [h2], by simp [h2], ?_⟩
    intro pr d hpr hst hd hres1
    rw [h2] at hres1
    exact absurd hres1 (by decide)
  · have h2 : (x402Fetch env accounts).2 = ⟨1, 1, 1⟩ := htr.trans ht
    refine ⟨by simp [h2], by simp [h2], ?_⟩
    intro pr d hpr hst hd _
    have hout : resubmitOutcome env.paid =
        .ok { success := false, response := some d,
              error := some ("HTTP 402: " ++ d.errText) } := by
      rw [hpr]
      simp [resubmitOutcome, hd, hst]
    have h1 := x402Fetch_of_ok env accounts _ (hres.trans hout)
    exact ⟨by rw [h1], by rw [h1], by rw [h1]⟩

/-- The wallet set holding only an EVM key. -/
def accountsEvmOnly : Accounts := ⟨⟨"0xMe"⟩, none⟩

/-- A 402 challenge response carrying a single EVM accept in its body. -/
def respEvmOnly402 : InitResp :=
  { status := 402
    jsonCatchNull := none
    textCatchUnknown := "x"
    header := none
    bodyText := .ok (.parsed ⟨some [noExtraAccept]⟩) }

/-- A resubmission response that is 402 again, with a string body. -/
def paidRejected402 : PaidResp :=
  { status := 402, data := .ok (.strVal "payment rejected") }

/-- An environment whose initial response is a 402 challenge with a single
EVM accept, and whose resubmission is answered 402 again. -/
def envPaid402 : FetchEnv :=
  { initial := .ok respEvmOnly402
    paid := .ok paidRejected402
    evmEnv := evmEnvSdkOk
    solEnv := solEnvOk }

/-- Closed witness for `c1_single_payment_attempt`: a run whose
resubmission is answered 402 again fails with the server body verbatim. -/
theorem c1_single_payment_attempt_witness :
    (x402Fetch envPaid402 accountsEvmOnly).2.paymentsBuilt ≤ 1 ∧
    (x402Fetch envPaid402 accountsEvmOnly).1.success = false ∧
    (x402Fetch envPaid402 accountsEvmOnly).1.response =
      some (.strVal "payment rejected") ∧
    (x402Fetch envPaid402 accountsEvmOnly).1.error =
      some "HTTP 402: payment rejected" :=
  have h := c1_single_payment_attempt envPaid402 accountsEvmOnly
  have h3 := h.2.2 paidRejected402 (.strVal "payment rejected") rfl rfl rfl (by decide)
  ⟨h.1, h3.1, h3.2.1, h3.2.2.trans (by decide)⟩

/-- C2, amended: the orchestrator never raises — any error escaping the
try body is converted at the top level into the Network-error outcome
(capital N), while errors thrown inside either signer are caught within
the signer and surface as null (the failed-to-sign outcome), never
reaching the top-level catch. -/
theorem c2_amended_never_throws (env : FetchEnv) (accounts : Accounts) :
    (∀ m t, x402FetchTryBlock env accounts = (.error m, t) →
      x402Fetch env accounts =
        ({ success := false, response := none,
           error := some ("Network error: " ++ m) }, t)) ∧
    (∀ envE a req m, signPaymentCore envE a req = .error m →
      signPayment envE a req = none) ∧
    (∀ envS k req m, signSolanaPaymentCore envS k req = .error m →
      signSolanaPayment envS k req = none) := by
  refine ⟨?_, ?_, ?_⟩
  · intro m t h
    unfold x402Fetch
    rw [h]
  · intro envE a req m h
    unfold signPayment
    rw [h]
  · intro envS k req m h
    unfold signSolanaPayment
    rw [h]

/-- An environment whose initial fetch throws. -/
def envInitialThrow : FetchEnv :=
  { initial := .error "fetch failed: ECONNREFUSED"
    paid := .ok { status := 200, data := .ok (.strVal "ok") }
    evmEnv := evmEnvNoSdk
    solEnv := solEnvOk }

/-- Closed witness for `c2_amended_never_throws`: a thrown initial fetch
resolves to the Network-error outcome. -/
theorem c2_amended_never_throws_witness :
    x402Fetch envInitialThrow accountsEvmOnly =
      ({ success := false, response := none,
         error := some ("Network error: " ++ "fetch failed: ECONNREFUSED") },
       ⟨0, 0, 0⟩) :=
  (c2_amended_never_throws envInitialThrow accountsEvmOnly).1
    "fetch failed: ECONNREFUSED" ⟨0, 0, 0⟩ rfl

/-- An environment whose 402 challenge selects the EVM path while the SDK
fails and the accept lacks extra metadata, so the custom signing path
throws. -/
def envSignerThrow : FetchEnv :=
  { initial := .ok respEvmOnly402
    paid := .ok { status := 200, data := .ok (.strVal "ok") }
    evmEnv := evmEnvNoSdk
    solEnv := solEnvOk }

/-- C2, counterexample: an exception thrown inside the signing step (the
EIP-712 domain check) is caught inside the signer, not at the top level:
the outcome's error is the failed-to-sign text, not a network-error text
built from the thrown message, under either capitalization. -/
theorem c2_counterexample_inner_catch :
    signPaymentCore evmEnvNoSdk ⟨"0xMe"⟩ (normalizeAccept noExtraAccept) =
      .error "EIP-712 domain params (name, version) required in payment requirements" ∧
    (x402Fetch envSignerThrow accountsEvmOnly).1.error =
      some "Failed to sign payment (check logs)" ∧
    (x402Fetch envSignerThrow accountsEvmOnly).1.error ≠
      some ("network error: " ++
        "EIP-712 domain params (name, version) required in payment requirements") ∧
    (x402Fetch envSignerThrow accountsEvmOnly).1.error ≠
      some ("Network error: " ++
        "EIP-712 domain params (name, version) required in payment requirements") :=
  ⟨rfl, by decide, by decide, by decide⟩

/-- C9, amended: when every accepted network is incompatible with the held
wallets (no solana-prefixed entry with a Solana key held, no
eip155-prefixed entry at all), `x402Fetch` fails with the same message as
a parse failure — "Could not parse payment requirements", the distinct
no-compatible-wallet text existing only in a log — and invokes neither
signer. -/
theorem c9_amended_no_compatible (env : FetchEnv) (accounts : Accounts)
    (ir : InitResp) (accepts : List Accept)
    (hinit : env.initial = .ok ir) (hst : ir.status = 402)
    (hreq : headerRequirements ir.header = some ⟨some accepts⟩ ∨
      (headerRequirements ir.header = none ∧
        ir.bodyText = .ok (.parsed ⟨some accepts⟩)))
    (hnets : ∀ a ∈ accepts, ∃ s, a.network = some s ∧
      (strStartsWith s "solana:" = true → accounts.solana = none) ∧
      strStartsWith s "eip155:" = false) :
    x402Fetch env accounts =
      ({ success := false, response := none,
         error := some "Could not parse payment requirements" }, ⟨0, 0, 0⟩) := by
  have hsolana : findSolanaAccept ⟨true, accounts.solana.isSome⟩ accepts = .ok none := by
    apply findSolanaAccept_none_of_incompatible
    intro a ha
    obtain ⟨s, hs, hw, _⟩ := hnets a ha
    exact ⟨s, hs, fun hp => by simp [hw hp]⟩
  have hevm : findEvmAccept ⟨true, accounts.solana.isSome⟩ accepts = .ok none := by
    apply findEvmAccept_none_of_incompatible
    intro a ha
    obtain ⟨s, hs, _, he⟩ := hnets a ha
    exact ⟨s, hs, fun hp => absurd hp (by simp [he])⟩
  have hsel : selectFromRequirements ⟨some accepts⟩ ⟨true, accounts.solana.isSome⟩ =
      .ok none := by
    simp [selectFromRequirements, hsolana, hevm, Except.bind, Bind.bind]
  have hparse : parsePaymentRequired ⟨ir.header, ir.bodyText⟩
      ⟨true, accounts.solana.isSome⟩ = .ok none := by
    cases hreq with
    | inl h => simp only [parsePaymentRequired, h, hsel]
    | inr h => simp only [parsePaymentRequired, h.1, h.2, hsel]
  simp [x402Fetch, x402FetchTryBlock, hinit, hst, hparse]

/-- An accept list offering only Solana. -/
def solOnlyAccept : Accept :=
  { scheme := some "exact"
    network := some "solana:mainnet"
    maxAmountRequired := some "9"
    payToAddress := some "DestW"
    extra := none }

/-- A 402 challenge response offering only a Solana accept. -/
def respSolOnly402 : InitResp :=
  { status := 402
    jsonCatchNull := none
    textCatchUnknown := "x"
    header := none
    bodyText := .ok (.parsed ⟨some [solOnlyAccept]⟩) }

/-- A 402 challenge offering only Solana, faced with an EVM-only wallet. -/
def envSolOnly : FetchEnv :=
  { initial := .ok respSolOnly402
    paid := .ok { status := 200, data := .ok (.strVal "ok") }
    evmEnv := evmEnvNoSdk
    solEnv := solEnvOk }

/-- Closed witness for `c9_amended_no_compatible` at the Solana-only
challenge with an EVM-only wallet. -/
theorem c9_amended_no_compatible_witness :
    x402Fetch envSolOnly accountsEvmOnly =
      ({ success := false, response := none,
         error := some "Could not parse payment requirements" }, ⟨0, 0, 0⟩) :=
  c9_amended_no_compatible envSolOnly accountsEvmOnly respSolOnly402
    [solOnlyAccept] rfl rfl (Or.inr ⟨rfl, rfl⟩)
    (fun a ha => by
      rw [List.mem_singleton.mp ha]
      exact ⟨"solana:mainnet", rfl, fun _ => rfl, by decide⟩)

/-- C9, counterexample: at the Solana-only challenge with an EVM-only
wallet the returned error is the parse-failure message, not the claimed
distinct no-compatible-wallet message (though no signer is invoked). -/
theorem c9_counterexample_error_message :
    (x402Fetch envSolOnly accountsEvmOnly).1.error =
      some "Could not parse payment requirements" ∧
    (x402Fetch envSolOnly accountsEvmOnly).1.error ≠
      some "no compatible wallet for accepted networks" ∧
    (x402Fetch envSolOnly accountsEvmOnly).2.signerCalls = 0 :=
  ⟨by decide, by decide, by decide⟩

/-- Closed witness for `c5_selector_prefers_first_solana`: on a list
offering the EVM option first and the Solana option second, with both
wallets held, the Solana option is selected. -/
theorem c5_selector_prefers_first_solana_witness :
    parsePaymentRequired ⟨none, .ok (.parsed ⟨some [noExtraAccept, solOnlyAccept]⟩)⟩
      ⟨true, true⟩ =
      .ok (Option.map normalizeAccept
        ([noExtraAccept, solOnlyAccept].find? isSolanaNet)) ∧
    ([noExtraAccept, solOnlyAccept].find? isSolanaNet).isSome :=
  c5_selector_prefers_first_solana ⟨true, true⟩ rfl rfl
    [noExtraAccept, solOnlyAccept] (by decide)
    ⟨solOnlyAccept, by decide, by decide⟩
    ⟨noExtraAccept, by decide, by decide⟩
